import Mathlib

/-!
Shallow embedding of the device-selection, swap-chain provisioning and
frame-loop synchronization logic of src/main.cpp (voxel-raytracer).
Machine 32-bit unsigned quantities are modelled as Nat with explicit
`% 2 ^ 32` where overflow can matter; the C++ `int` score is modelled as Int.
-/

/-- Vulkan enum value VK_FORMAT_B8G8R8A8_SRGB. -/
def VK_FORMAT_B8G8R8A8_SRGB : Nat := 50

/-- Vulkan enum value VK_COLOR_SPACE_SRGB_NONLINEAR_KHR. -/
def VK_COLOR_SPACE_SRGB_NONLINEAR_KHR : Nat := 0

/-- Vulkan enum value VK_PHYSICAL_DEVICE_TYPE_DISCRETE_GPU. -/
def VK_PHYSICAL_DEVICE_TYPE_DISCRETE_GPU : Nat := 2

/-- Vulkan flag bit VK_QUEUE_GRAPHICS_BIT. -/
def VK_QUEUE_GRAPHICS_BIT : Nat := 1

/-- The value std::numeric_limits of uint32_t max, the "any size" extent sentinel. -/
def UINT32_MAX : Nat := 2 ^ 32 - 1

/-- Modulus of 32-bit unsigned arithmetic. -/
def UINT32_MOD : Nat := 2 ^ 32

/-- The value std::numeric_limits of int min, initial best score in find_physical_device. -/
def INT_MIN : Int := -(2 ^ 31)

/-- MAX_FRAMES_IN_FLIGHT constant from main.cpp line 15. -/
def MAX_FRAMES_IN_FLIGHT : Nat := 2

/-- VkExtent2D: a width/height pair of uint32 values. -/
structure VkExtent2D where
  width : Nat
  height : Nat
  deriving DecidableEq

/-- The fields of VkSurfaceCapabilitiesKHR that main.cpp reads. -/
structure VkSurfaceCapabilitiesKHR where
  minImageCount : Nat
  maxImageCount : Nat
  currentExtent : VkExtent2D
  minImageExtent : VkExtent2D
  maxImageExtent : VkExtent2D
  deriving DecidableEq

/-- VkSurfaceFormatKHR: a (format, colorSpace) pair. -/
structure VkSurfaceFormatKHR where
  format : Nat
  colorSpace : Nat
  deriving DecidableEq

/-- struct swapchain_support_details from main.cpp lines 169-217.
Present modes are bare Vulkan enum values. -/
structure swapchain_support_details where
  capabilities : VkSurfaceCapabilitiesKHR
  formats : List VkSurfaceFormatKHR
  present_modes : List Nat
  deriving DecidableEq

/-- is_adequate (main.cpp lines 174-176): both lists non-empty. -/
def swapchain_support_details.is_adequate (d : swapchain_support_details) : Bool :=
  !d.formats.isEmpty && !d.present_modes.isEmpty

/-- The preference test inside get_surface_format (main.cpp line 180). -/
def preferred_surface_format (f : VkSurfaceFormatKHR) : Bool :=
  f.format == VK_FORMAT_B8G8R8A8_SRGB && f.colorSpace == VK_COLOR_SPACE_SRGB_NONLINEAR_KHR

/-- get_surface_format (main.cpp lines 178-186): first matching preferred entry,
else `formats[0]`. The unconditional index is modelled by `formats[0]?`,
whose `none` case corresponds to the out-of-bounds access on an empty list. -/
def swapchain_support_details.get_surface_format (d : swapchain_support_details) :
    Option VkSurfaceFormatKHR :=
  match d.formats.find? preferred_surface_format with
  | some f => some f
  | none => d.formats[0]?

/-- std::clamp(v, lo, hi): v < lo gives lo, hi < v gives hi, else v. -/
def std_clamp (v lo hi : Nat) : Nat :=
  if v < lo then lo else if hi < v then hi else v

/-- get_extent (main.cpp lines 198-216). The framebuffer size that the source
reads with glfwGetFramebufferSize is passed in as `framebuffer_size`. -/
def swapchain_support_details.get_extent (d : swapchain_support_details)
    (framebuffer_size : VkExtent2D) : VkExtent2D :=
  if d.capabilities.currentExtent.width ≠ UINT32_MAX then
    d.capabilities.currentExtent
  else
    { width := std_clamp framebuffer_size.width
        d.capabilities.minImageExtent.width d.capabilities.maxImageExtent.width,
      height := std_clamp framebuffer_size.height
        d.capabilities.minImageExtent.height d.capabilities.maxImageExtent.height }

/-- One VkQueueFamilyProperties entry together with the surface-support answer
that vkGetPhysicalDeviceSurfaceSupportKHR returns for it. -/
structure queue_family_props where
  queueFlags : Nat
  present_support : Bool
  deriving DecidableEq

/-- struct queue_family_indices from main.cpp lines 135-142. -/
structure queue_family_indices where
  graphics_family : Option Nat
  present_family : Option Nat
  deriving DecidableEq

/-- is_complete (main.cpp lines 139-141). -/
def queue_family_indices.is_complete (i : queue_family_indices) : Bool :=
  i.graphics_family.isSome && i.present_family.isSome

/-- The indexed loop of find_queue_families (main.cpp lines 153-164). -/
def find_queue_families_loop :
    List queue_family_props → Nat → queue_family_indices → queue_family_indices
  | [], _, indices => indices
  | q :: rest, i, indices =>
    let indices1 :=
      if (q.queueFlags &&& VK_QUEUE_GRAPHICS_BIT) ≠ 0 && !indices.graphics_family.isSome then
        { indices with graphics_family := some i }
      else indices
    let indices2 :=
      if q.present_support && !indices1.present_family.isSome then
        { indices1 with present_family := some i }
      else indices1
    find_queue_families_loop rest (i + 1) indices2

/-- A physical device as observed through the Vulkan queries that main.cpp
performs: its queue families with their surface-support answers, the surface
formats and present modes reported for the target surface, and its device type. -/
structure physical_device where
  queue_families : List queue_family_props
  formats : List VkSurfaceFormatKHR
  present_modes : List Nat
  capabilities : VkSurfaceCapabilitiesKHR
  deviceType : Nat
  deriving DecidableEq

/-- find_queue_families (main.cpp lines 144-167). -/
def find_queue_families (d : physical_device) : queue_family_indices :=
  find_queue_families_loop d.queue_families 0 ⟨none, none⟩

/-- get_swapchain_details (main.cpp lines 219-240): repackages the queried data. -/
def get_swapchain_details (d : physical_device) : swapchain_support_details :=
  ⟨d.capabilities, d.formats, d.present_modes⟩

/-- rate_physical_device (main.cpp lines 258-279). -/
def rate_physical_device (d : physical_device) : Int :=
  let indices := find_queue_families d
  if !indices.is_complete then -1
  else
    let swapchain_details := get_swapchain_details d
    if !swapchain_details.is_adequate then -1
    else
      let score : Int := 0
      let score := if d.deviceType == VK_PHYSICAL_DEVICE_TYPE_DISCRETE_GPU then score + 100
        else score
      score

/-- The selection loop of find_physical_device (main.cpp lines 288-296). -/
def find_physical_device_loop :
    List physical_device → Option physical_device → Int → Option physical_device
  | [], best_device, _ => best_device
  | d :: rest, best_device, highest_score =>
    let score := rate_physical_device d
    if score > highest_score then
      find_physical_device_loop rest (some d) score
    else
      find_physical_device_loop rest best_device highest_score

/-- find_physical_device (main.cpp lines 281-299): best device starts null,
highest score starts at INT_MIN, strictly-greater comparison. The enumerated
device list stands for what vkEnumeratePhysicalDevices reports. -/
def find_physical_device (devices : List physical_device) : Option physical_device :=
  find_physical_device_loop devices none INT_MIN

/-- Swap-chain image count computation (main.cpp lines 358-361), in uint32
arithmetic. -/
def swapchain_image_count (caps : VkSurfaceCapabilitiesKHR) : Nat :=
  let image_count := (caps.minImageCount + 1) % UINT32_MOD
  if caps.maxImageCount > 0 ∧ image_count > caps.maxImageCount then caps.maxImageCount
  else image_count

/-- VkSharingMode values used by create_swapchain. -/
inductive VkSharingMode where
  | exclusive
  | concurrent
  deriving DecidableEq

/-- The sharing-related fields of VkSwapchainCreateInfoKHR set by
create_swapchain; `none` models a null pQueueFamilyIndices pointer. -/
structure swapchain_sharing_config where
  imageSharingMode : VkSharingMode
  queueFamilyIndexCount : Nat
  pQueueFamilyIndices : Option (List Nat)
  deriving DecidableEq

/-- Sharing-mode selection in create_swapchain (main.cpp lines 373-384);
the arguments are `indices.graphics_family.value()` and
`indices.present_family.value()`. -/
def create_swapchain_sharing (graphics_family present_family : Nat) :
    swapchain_sharing_config :=
  let index_array := [graphics_family, present_family]
  if graphics_family ≠ present_family then
    ⟨VkSharingMode.concurrent, 2, some index_array⟩
  else
    ⟨VkSharingMode.exclusive, 0, none⟩

/-- One entry of the vector returned by create_swapchain_image_views:
either a successfully created view handle, or the value pushed after a
failed vkCreateImageView call, where the source appends the still
uninitialized local `view` variable. -/
inductive image_view_slot where
  | created (view : Nat)
  | uninit
  deriving DecidableEq

/-- create_swapchain_image_views (main.cpp lines 402-432). `create_view`
models the driver response of vkCreateImageView for each image: `some v` on
VK_SUCCESS, `none` on failure. On failure the source logs and the loop body
still executes `image_views.push_back(view)` with `view` uninitialized. -/
def create_swapchain_image_views (create_view : Nat → Option Nat) :
    List Nat → List image_view_slot
  | [] => []
  | img :: rest =>
    (match create_view img with
     | some view => image_view_slot.created view
     | none => image_view_slot.uninit) :: create_swapchain_image_views create_view rest

/-- Per-slot synchronization state of the frame loop (main.cpp lines 856-943):
whether each slot's in-flight fence is signaled, whether the slot has
submitted GPU work still outstanding, and the current frame index. -/
structure frame_sync_state where
  fence_signaled : Fin MAX_FRAMES_IN_FLIGHT → Bool
  work_pending : Fin MAX_FRAMES_IN_FLIGHT → Bool
  current_frame : Fin MAX_FRAMES_IN_FLIGHT
  deriving DecidableEq

/-- State after sync-object creation (main.cpp lines 840-856): every fence is
created with VK_FENCE_CREATE_SIGNALED_BIT, no work has been submitted,
current_frame = 0. -/
def init_sync_state : frame_sync_state :=
  { fence_signaled := fun _ => true,
    work_pending := fun _ => false,
    current_frame := ⟨0, by decide⟩ }

/-- Effect of vkWaitForFences on the current slot (main.cpp line 866): the
unbounded wait returns only once the fence is signaled, which entails that any
outstanding submitted work of that slot has completed. -/
def frame_wait_phase (s : frame_sync_state) : frame_sync_state :=
  { s with
    fence_signaled := Function.update s.fence_signaled s.current_frame true,
    work_pending := Function.update s.work_pending s.current_frame false }

/-- One iteration of the frame loop body (main.cpp lines 858-943) restricted
to its effect on synchronization state: wait on the slot's fence, reset it
(vkResetFences), record and submit with the fence (vkQueueSubmit), leaving the
slot's work outstanding, then advance current_frame mod MAX_FRAMES_IN_FLIGHT. -/
def frame_loop_step (s : frame_sync_state) : frame_sync_state :=
  let c := s.current_frame
  let s1 := frame_wait_phase s
  let s2 := { s1 with fence_signaled := Function.update s1.fence_signaled c false }
  let s3 := { s2 with work_pending := Function.update s2.work_pending c true }
  { s3 with current_frame :=
      ⟨(c.val + 1) % MAX_FRAMES_IN_FLIGHT, Nat.mod_lt _ (by decide)⟩ }

/-- The observable events of one frame-loop iteration for slot `c`, in the
program order of main.cpp lines 858-943. -/
inductive frame_event where
  | poll_events
  | wait_fence (slot : Fin MAX_FRAMES_IN_FLIGHT)
  | reset_fence (slot : Fin MAX_FRAMES_IN_FLIGHT)
  | acquire_image
  | reset_command_buffer (slot : Fin MAX_FRAMES_IN_FLIGHT)
  | begin_command_buffer (slot : Fin MAX_FRAMES_IN_FLIGHT)
  | submit_queue (slot : Fin MAX_FRAMES_IN_FLIGHT)
  | present_image
  deriving DecidableEq, BEq

/-- Event trace of one frame-loop iteration with current frame `c`
(main.cpp lines 859-940, in source order). -/
def frame_iteration_events (c : Fin MAX_FRAMES_IN_FLIGHT) : List frame_event :=
  [frame_event.poll_events,
   frame_event.wait_fence c,
   frame_event.reset_fence c,
   frame_event.acquire_image,
   frame_event.reset_command_buffer c,
   frame_event.begin_command_buffer c,
   frame_event.submit_queue c,
   frame_event.present_image]

/-- Frame-index advance (main.cpp line 942). -/
def advance_frame (current_frame : Nat) : Nat :=
  (current_frame + 1) % MAX_FRAMES_IN_FLIGHT

/-! Concrete inputs used by witnesses and counterexamples. -/

/-- Empty surface capabilities used as a placeholder where the claim does not
depend on them. -/
def zero_caps : VkSurfaceCapabilitiesKHR := ⟨0, 0, ⟨0, 0⟩, ⟨0, 0⟩, ⟨0, 0⟩⟩

/-- A device with no queue families at all: find_queue_families leaves both
families unresolved, so rate_physical_device returns -1. -/
def c1_ineligible_device : physical_device := ⟨[], [], [], zero_caps, 0⟩

/-- Driver response that fails view creation exactly on image handle 10. -/
def c2_create_view : Nat → Option Nat :=
  fun img => if img == 10 then none else some (img + 100)

/-- Scenario-C capabilities: minImageCount = 2, maxImageCount = 2. -/
def c3_caps : VkSurfaceCapabilitiesKHR := ⟨2, 2, ⟨0, 0⟩, ⟨0, 0⟩, ⟨0, 0⟩⟩

/-- Details reporting a fixed (non-sentinel) current extent of 800 by 450. -/
def c4_fixed_details : swapchain_support_details :=
  ⟨⟨1, 2, ⟨800, 450⟩, ⟨100, 100⟩, ⟨1000, 1000⟩⟩, [], []⟩

/-- Details reporting the adaptive sentinel current extent. -/
def c4_adaptive_details : swapchain_support_details :=
  ⟨⟨1, 2, ⟨UINT32_MAX, UINT32_MAX⟩, ⟨100, 100⟩, ⟨1000, 1000⟩⟩, [], []⟩

/-- An eligible discrete GPU: one queue family with the graphics bit and
present support, non-empty format and present-mode lists. -/
def c5_discrete_device : physical_device :=
  ⟨[⟨1, true⟩], [⟨50, 0⟩], [2], zero_caps, 2⟩

/-- A device whose single queue family supports graphics but not presentation:
the present family stays unresolved. -/
def c5_no_present_device : physical_device :=
  ⟨[⟨1, false⟩], [⟨50, 0⟩], [2], zero_caps, 2⟩

/-- Details whose format list holds a non-preferred entry and then the
preferred BGRA-sRGB entry. -/
def c8_details : swapchain_support_details :=
  ⟨zero_caps, [⟨37, 0⟩, ⟨50, 0⟩], [2]⟩

/-- Adequate details with a single non-preferred format. -/
def c10_details : swapchain_support_details :=
  ⟨zero_caps, [⟨44, 0⟩], [2]⟩

/-! Helper lemmas. -/

lemma is_complete_false_iff (i : queue_family_indices) :
    i.is_complete = false ↔ i.graphics_family = none ∨ i.present_family = none := by
  cases hg : i.graphics_family <;> cases hp : i.present_family <;>
    simp [queue_family_indices.is_complete, hg, hp]

lemma is_adequate_false_iff (dd : swapchain_support_details) :
    dd.is_adequate = false ↔ dd.formats = [] ∨ dd.present_modes = [] := by
  cases hf : dd.formats <;> cases hm : dd.present_modes <;>
    simp [swapchain_support_details.is_adequate, hf, hm]

lemma fence_inv_step (s : frame_sync_state)
    (h : ∀ i, s.work_pending i = false → s.fence_signaled i = true) :
    ∀ i, (frame_loop_step s).work_pending i = false →
      (frame_loop_step s).fence_signaled i = true := by
  intro i hp
  by_cases hic : i = s.current_frame
  · subst hic
    simp [frame_loop_step, frame_wait_phase, Function.update_same] at hp
  · simp only [frame_loop_step, frame_wait_phase, Function.update_noteq hic] at hp ⊢
    exact h i hp

/-! Claim theorems. -/

/-- Claim C1 (code_bug evidence): with a single enumerated device that scores
the ineligible sentinel -1, find_physical_device still returns that device,
because -1 exceeds the INT_MIN initial best score; a null handle is produced
only when zero devices are enumerated. This contradicts the claim that
selection fails whenever no device scores above -1. -/
theorem find_physical_device_returns_ineligible :
    rate_physical_device c1_ineligible_device = -1 ∧
    find_physical_device [c1_ineligible_device] = some c1_ineligible_device ∧
    find_physical_device [] = none := by decide

/-- Claim C2 (counterexample): with two images where view creation fails on
the first, the loop continues and still appends an entry for the failed image,
so the returned list has exactly as many elements as there are images — the
count is not smaller, refuting the claim's count statement. -/
theorem create_image_views_count_counterexample :
    c2_create_view 10 = none ∧
    create_swapchain_image_views c2_create_view [10, 11] =
      [image_view_slot.uninit, image_view_slot.created 111] ∧
    ¬ (create_swapchain_image_views c2_create_view [10, 11]).length <
        ([10, 11] : List Nat).length := by decide

/-- Claim C2 (amended): a view-creation failure is logged and the loop keeps
creating the remaining views, but the failed iteration still pushes the
uninitialized view variable, so the returned list always has exactly one
entry per swap-chain image; the result is the element-wise image of the
per-image driver response. -/
theorem create_image_views_fail_soft :
    ∀ (create_view : Nat → Option Nat) (images : List Nat),
      (create_swapchain_image_views create_view images).length = images.length ∧
      create_swapchain_image_views create_view images =
        images.map (fun img =>
          match create_view img with
          | some view => image_view_slot.created view
          | none => image_view_slot.uninit) := by
  intro create_view images
  induction images with
  | nil => exact ⟨rfl, rfl⟩
  | cons img rest ih =>
    refine ⟨?_, ?_⟩ <;>
      simp [create_swapchain_image_views, ih.1, ih.2]

/-- Claim C3: for device-reported capabilities (maxImageCount is zero or at
least minImageCount, and minImageCount + 1 does not overflow uint32), the
chosen image count is min(minImageCount + 1, maxImageCount) when
maxImageCount > 0 and minImageCount + 1 otherwise, and it satisfies
minImageCount ≤ count and (maxImageCount = 0 or count ≤ maxImageCount). -/
theorem swapchain_image_count_spec (caps : VkSurfaceCapabilitiesKHR)
    (hov : caps.minImageCount + 1 < UINT32_MOD)
    (hvalid : caps.maxImageCount = 0 ∨ caps.minImageCount ≤ caps.maxImageCount) :
    swapchain_image_count caps =
      (if caps.maxImageCount > 0 then Nat.min (caps.minImageCount + 1) caps.maxImageCount
       else caps.minImageCount + 1)
    ∧ caps.minImageCount ≤ swapchain_image_count caps
    ∧ (caps.maxImageCount = 0 ∨ swapchain_image_count caps ≤ caps.maxImageCount) := by
  have hmod : (caps.minImageCount + 1) % UINT32_MOD = caps.minImageCount + 1 :=
    Nat.mod_eq_of_lt hov
  have hcount : swapchain_image_count caps =
      if caps.maxImageCount > 0 ∧ caps.minImageCount + 1 > caps.maxImageCount
      then caps.maxImageCount else caps.minImageCount + 1 := by
    unfold swapchain_image_count
    rw [hmod]
  rw [hcount]
  simp only [Nat.min_def]
  split_ifs <;> omega

/-- Claim C3 witness: at minImageCount = maxImageCount = 2 the count is 2 and
both invariant halves hold. -/
theorem swapchain_image_count_spec_witness :
    swapchain_image_count c3_caps = 2 ∧
    c3_caps.minImageCount ≤ swapchain_image_count c3_caps ∧
    swapchain_image_count c3_caps ≤ c3_caps.maxImageCount := by
  have h := swapchain_image_count_spec c3_caps (by decide) (Or.inr (by decide))
  exact ⟨by decide, h.2.1, h.2.2.resolve_left (by decide)⟩

/-- Claim C4: get_extent returns the reported current extent verbatim when its
width is not the uint32 "any size" sentinel; with the sentinel it returns the
framebuffer size clamped component-wise into the min/max image extents, and a
framebuffer size already within bounds is returned unchanged. -/
theorem get_extent_spec (d : swapchain_support_details) (fb : VkExtent2D) :
    (d.capabilities.currentExtent.width ≠ UINT32_MAX →
      d.get_extent fb = d.capabilities.currentExtent)
    ∧ (d.capabilities.currentExtent.width = UINT32_MAX →
      d.get_extent fb =
        ⟨std_clamp fb.width d.capabilities.minImageExtent.width
            d.capabilities.maxImageExtent.width,
          std_clamp fb.height d.capabilities.minImageExtent.height
            d.capabilities.maxImageExtent.height⟩)
    ∧ (d.capabilities.currentExtent.width = UINT32_MAX →
      d.capabilities.minImageExtent.width ≤ fb.width →
      fb.width ≤ d.capabilities.maxImageExtent.width →
      d.capabilities.minImageExtent.height ≤ fb.height →
      fb.height ≤ d.capabilities.maxImageExtent.height →
      d.get_extent fb = fb) := by
  refine ⟨?_, ?_, ?_⟩
  · intro h
    simp [swapchain_support_details.get_extent, h]
  · intro h
    simp [swapchain_support_details.get_extent, h]
  · intro h h1 h2 h3 h4
    cases fb with
    | mk w ht =>
      simp only [VkExtent2D.mk.injEq] at h1 h2 h3 h4 ⊢
      simp [swapchain_support_details.get_extent, h, std_clamp]
      split_ifs <;> omega

/-- Claim C4 witness: a non-sentinel current extent of 800 by 450 is returned
verbatim while the framebuffer size differs; with the sentinel, the in-range
framebuffer size 640 by 480 is returned unchanged. -/
theorem get_extent_spec_witness :
    c4_fixed_details.get_extent ⟨640, 480⟩ = ⟨800, 450⟩ ∧
    c4_adaptive_details.get_extent ⟨640, 480⟩ = ⟨640, 480⟩ :=
  ⟨(get_extent_spec c4_fixed_details ⟨640, 480⟩).1 (by decide),
   (get_extent_spec c4_adaptive_details ⟨640, 480⟩).2.2 rfl (by decide) (by decide)
     (by decide) (by decide)⟩

/-- Claim C6: create_swapchain uses concurrent sharing with exactly the two
queue-family indices when the graphics and present families differ, and
exclusive sharing with a zero count and a null index list when they agree. -/
theorem create_swapchain_sharing_spec (g p : Nat) :
    (g ≠ p → create_swapchain_sharing g p =
      ⟨VkSharingMode.concurrent, 2, some [g, p]⟩)
    ∧ (g = p → create_swapchain_sharing g p =
      ⟨VkSharingMode.exclusive, 0, none⟩) := by
  constructor
  · intro h
    simp [create_swapchain_sharing, h]
  · intro h
    simp [create_swapchain_sharing, h]

/-- Claim C6 witness: families 0 and 0 give exclusive sharing with no indices
(Scenario E); families 0 and 1 give concurrent sharing listing both. -/
theorem create_swapchain_sharing_spec_witness :
    create_swapchain_sharing 0 0 = ⟨VkSharingMode.exclusive, 0, none⟩ ∧
    create_swapchain_sharing 0 1 = ⟨VkSharingMode.concurrent, 2, some [0, 1]⟩ :=
  ⟨(create_swapchain_sharing_spec 0 0).2 rfl,
   (create_swapchain_sharing_spec 0 1).1 (by decide)⟩

/-- Claim C5: rate_physical_device returns the sentinel -1 exactly when the
queue-family mapping is incomplete (graphics or present family unresolved) or
surface support is inadequate (empty format or present-mode list); for every
other device it returns 0, plus 100 when the device type is discrete GPU. -/
theorem rate_physical_device_spec (d : physical_device) :
    (rate_physical_device d = -1 ↔
      ((find_queue_families d).graphics_family = none ∨
       (find_queue_families d).present_family = none ∨
       d.formats = [] ∨ d.present_modes = []))
    ∧ ((find_queue_families d).is_complete = true →
       (get_swapchain_details d).is_adequate = true →
       rate_physical_device d =
         if d.deviceType = VK_PHYSICAL_DEVICE_TYPE_DISCRETE_GPU then 100 else 0) := by
  have hc := is_complete_false_iff (find_queue_families d)
  have ha := is_adequate_false_iff (get_swapchain_details d)
  have hfa : (get_swapchain_details d).formats = d.formats := rfl
  have hma : (get_swapchain_details d).present_modes = d.present_modes := rfl
  rw [hfa, hma] at ha
  constructor
  · by_cases h1 : (find_queue_families d).is_complete = true
    · by_cases h2 : (get_swapchain_details d).is_adequate = true
      · constructor
        · intro hm
          exfalso
          by_cases hb : d.deviceType = VK_PHYSICAL_DEVICE_TYPE_DISCRETE_GPU <;>
            simp [rate_physical_device, h1, h2, hb] at hm
        · intro hdisj
          exfalso
          rcases hdisj with h | h | h | h
          · have hf := hc.mpr (Or.inl h); rw [h1] at hf; exact Bool.noConfusion hf
          · have hf := hc.mpr (Or.inr h); rw [h1] at hf; exact Bool.noConfusion hf
          · have hf := ha.mpr (Or.inl h); rw [h2] at hf; exact Bool.noConfusion hf
          · have hf := ha.mpr (Or.inr h); rw [h2] at hf; exact Bool.noConfusion hf
      · have h2f : (get_swapchain_details d).is_adequate = false := by
          revert h2; cases (get_swapchain_details d).is_adequate <;> simp
        have hr : rate_physical_device d = -1 := by
          simp [rate_physical_device, h1, h2f]
        rw [hr]
        constructor
        · intro _
          rcases ha.mp h2f with h | h
          · exact Or.inr (Or.inr (Or.inl h))
          · exact Or.inr (Or.inr (Or.inr h))
        · intro _
          rfl
    · have h1f : (find_queue_families d).is_complete = false := by
        revert h1; cases (find_queue_families d).is_complete <;> simp
      have hr : rate_physical_device d = -1 := by
        simp [rate_physical_device, h1f]
      rw [hr]
      constructor
      · intro _
        rcases hc.mp h1f with h | h
        · exact Or.inl h
        · exact Or.inr (Or.inl h)
      · intro _
        rfl
  · intro h1 h2
    by_cases hb : d.deviceType = VK_PHYSICAL_DEVICE_TYPE_DISCRETE_GPU <;>
      simp [rate_physical_device, h1, h2, hb]

/-- Claim C5 witness: an eligible discrete GPU scores 100; a device whose only
queue family lacks presentation support scores -1. -/
theorem rate_physical_device_spec_witness :
    rate_physical_device c5_discrete_device = 100 ∧
    rate_physical_device c5_no_present_device = -1 := by
  constructor
  · have h := (rate_physical_device_spec c5_discrete_device).2 (by decide) (by decide)
    rw [h]
    decide
  · exact (rate_physical_device_spec c5_no_present_device).1.mpr
      (Or.inr (Or.inl (by decide)))

/-- Claim C7: within one frame-loop iteration the wait on the current slot's
fence strictly precedes the reset and re-recording of that slot's command
buffer; after the wait phase the slot's fence has been observed signaled with
no work outstanding; and the frame index advances to (current + 1) mod
MAX_FRAMES_IN_FLIGHT with MAX_FRAMES_IN_FLIGHT = 2. -/
theorem frame_loop_order_spec :
    (∀ c : Fin MAX_FRAMES_IN_FLIGHT,
      (frame_iteration_events c).indexOf (frame_event.wait_fence c) <
        (frame_iteration_events c).indexOf (frame_event.reset_command_buffer c) ∧
      (frame_iteration_events c).indexOf (frame_event.reset_command_buffer c) <
        (frame_iteration_events c).indexOf (frame_event.begin_command_buffer c))
    ∧ (∀ s : frame_sync_state,
        (frame_wait_phase s).fence_signaled s.current_frame = true ∧
        (frame_wait_phase s).work_pending s.current_frame = false ∧
        (frame_loop_step s).current_frame.val =
          (s.current_frame.val + 1) % MAX_FRAMES_IN_FLIGHT ∧
        advance_frame s.current_frame.val =
          (s.current_frame.val + 1) % MAX_FRAMES_IN_FLIGHT)
    ∧ MAX_FRAMES_IN_FLIGHT = 2 := by
  refine ⟨by decide, ?_, rfl⟩
  intro s
  refine ⟨?_, ?_, rfl, rfl⟩ <;> simp [frame_wait_phase]

/-- Claim C9: every in-flight fence is created signaled, so when each slot is
first reached its fence wait sees a signaled fence with no outstanding work;
and from startup onward, a slot whose work is not outstanding always has a
signaled fence. -/
theorem fences_start_signaled_spec :
    (∀ i : Fin MAX_FRAMES_IN_FLIGHT, init_sync_state.fence_signaled i = true)
    ∧ (∀ k : Fin MAX_FRAMES_IN_FLIGHT,
        (frame_loop_step^[k.val] init_sync_state).current_frame = k ∧
        (frame_loop_step^[k.val] init_sync_state).fence_signaled k = true ∧
        (frame_loop_step^[k.val] init_sync_state).work_pending k = false)
    ∧ (∀ n : Nat, ∀ i : Fin MAX_FRAMES_IN_FLIGHT,
        (frame_loop_step^[n] init_sync_state).work_pending i = false →
        (frame_loop_step^[n] init_sync_state).fence_signaled i = true) := by
  refine ⟨by decide, by decide, ?_⟩
  intro n
  induction n with
  | zero =>
    intro i _
    rfl
  | succ n ih =>
    rw [Function.iterate_succ_apply']
    exact fence_inv_step _ ih

/-- Claim C9 witness: at startup, slot 0 has no outstanding work and the
invariant yields a signaled fence. -/
theorem fences_start_signaled_spec_witness :
    (frame_loop_step^[0] init_sync_state).fence_signaled ⟨0, by decide⟩ = true :=
  fences_start_signaled_spec.2.2 0 ⟨0, by decide⟩ rfl

/-- Claim C8: on a non-empty format list, get_surface_format returns a
preferred BGRA-sRGB entry of the list whenever one is present at any position,
and returns the first element when no entry is preferred. -/
theorem get_surface_format_spec (d : swapchain_support_details)
    (hne : d.formats ≠ []) :
    ((∃ f, f ∈ d.formats ∧ preferred_surface_format f = true) →
      ∃ f, d.get_surface_format = some f ∧ f ∈ d.formats ∧
        preferred_surface_format f = true)
    ∧ ((∀ f, f ∈ d.formats → preferred_surface_format f = false) →
      d.get_surface_format = d.formats.head?) := by
  constructor
  · rintro ⟨f, hf, hp⟩
    cases hfind : d.formats.find? preferred_surface_format with
    | none =>
      rw [List.find?_eq_none] at hfind
      exact absurd hp (by simp [hfind f hf])
    | some g =>
      refine ⟨g, ?_, List.mem_of_find?_eq_some hfind, List.find?_some hfind⟩
      simp [swapchain_support_details.get_surface_format, hfind]
  · intro hall
    have hfind : d.formats.find? preferred_surface_format = none :=
      List.find?_eq_none.mpr (fun x hx => by simp [hall x hx])
    rcases hf : d.formats with _ | ⟨a, l⟩
    · exact absurd hf hne
    · rw [hf] at hfind
      simp [swapchain_support_details.get_surface_format, hf, hfind]

/-- Claim C8 witness: with the preferred entry in second position, the
preferred entry is chosen. -/
theorem get_surface_format_spec_witness :
    ∃ f, c8_details.get_surface_format = some f ∧ f ∈ c8_details.formats ∧
      preferred_surface_format f = true :=
  (get_surface_format_spec c8_details (by decide)).1
    ⟨⟨50, 0⟩, by decide, by decide⟩

/-- Claim C10: for details with adequate swap-chain support (non-empty format
list), get_surface_format never performs the out-of-bounds fallback access:
it always yields some format. -/
theorem get_surface_format_in_bounds (d : swapchain_support_details)
    (h : d.is_adequate = true) :
    d.get_surface_format.isSome = true := by
  have hne : d.formats ≠ [] := by
    intro hf
    rw [(is_adequate_false_iff d).mpr (Or.inl hf)] at h
    exact Bool.noConfusion h
  rcases hf : d.formats with _ | ⟨a, l⟩
  · exact absurd hf hne
  · cases hfind : d.formats.find? preferred_surface_format with
    | none =>
      rw [hf] at hfind
      simp [swapchain_support_details.get_surface_format, hf, hfind]
    | some g =>
      simp [swapchain_support_details.get_surface_format, hfind]

/-- Claim C10 witness: adequate details with one non-preferred format still
produce a format without out-of-bounds access. -/
theorem get_surface_format_in_bounds_witness :
    c10_details.is_adequate = true ∧ c10_details.get_surface_format.isSome = true :=
  ⟨by decide, get_surface_format_in_bounds c10_details (by decide)⟩
